import Mathlib

/-! ## Shallow embedding of netavark `src/commands/setup.rs`

This file models `Setup::exec` and its helpers (`get_sysctl_value`,
`set_sysctl_value`) from `src/commands/setup.rs`, together with the data
model those functions consume.  External collaborators (namespace
validation, config loading, the firewall driver obtained from the
capability probe, the two Network Constructors, and the hash service) are
modelled as oracle functions carried in an `Env` record, exactly as the
Rust code calls into them.  The kernel sysctl table is modelled as an
association list from dotted keys to string values; a key that exists can
be read and written, a key that does not exist makes both `Ctl::new`
paths fail with a `SysctlError`, as in the `sysctl` crate.

Execution is modelled as a pure function returning a `RunResult`
(ok / recoverable error / process-aborting panic — the Rust code contains
both `Err` returns and `panic!`/indexing panics, and the distinction
matters to the spec) together with the list of observable `Event`s in the
order they happened, so that claims about call counts and ordering can be
stated.
-/

set_option autoImplicit false

namespace Netavark

/-- `net.ipv4.ip_forward`, the constant `IPV4_FORWARD` of setup.rs. -/
def IPV4_FORWARD : String := "net.ipv4.ip_forward"

/-- Modelled from the spec: `MAX_HASH_SIZE` is declared in
`src/firewall/iptables.rs`, which is not part of the sources here; the
spec only requires it to be a fixed bound ("RuleHandle length is always
exactly a fixed bound (`MAX_HASH_SIZE`)").  The development uses the
value only abstractly. -/
def MAX_HASH_SIZE : Nat := 13

/-- `types::Subnet`: a CIDR network address plus optional gateway.  The
address payloads are opaque to setup.rs, so they are represented as
strings. -/
structure Subnet where
  subnet : String
  gateway : Option String
deriving DecidableEq, Repr

/-- `types::Network`: driver string (open set), optionally a bound host
interface name, optionally a list of subnets.  Modelled from the spec for
the field set (types.rs is not among the sources); setup.rs accesses
exactly `driver`, `network_interface` and `subnets`. -/
structure Network where
  driver : String
  network_interface : Option String
  subnets : Option (List Subnet)
deriving DecidableEq, Repr

/-- `types::PerNetworkOptions`: optional list of static IPs requested for
the container on this network.  setup.rs reads only `static_ips`. -/
structure PerNetworkOptions where
  static_ips : Option (List String)
  interface_name : Option String
deriving DecidableEq, Repr

/-- `types::PortMapping`: host port, container port, protocol.  Opaque to
setup.rs, which only passes the list through to the firewall driver. -/
structure PortMapping where
  host_port : Nat
  container_port : Nat
  protocol : String
deriving DecidableEq, Repr

/-- `types::StatusBlock`: opaque result of one Network Constructor call;
setup.rs only stores it in the response map. -/
structure StatusBlock where
  payload : String
deriving DecidableEq, Repr

/-- `types::NetworkOptions`.  Modelled from the spec: the concrete map
types live in `src/network/types.rs`, which is not among the sources; the
spec fixes "mapping from network name to Network spec (insertion order is
the processing order)", so both maps are insertion-ordered association
lists. -/
structure NetworkOptions where
  container_id : String
  network_info : List (String × Network)
  networks : List (String × PerNetworkOptions)
  port_mappings : Option (List PortMapping)

/-- First-match association-list lookup, the behaviour of `HashMap::get`
for the (unique-keyed) maps of `NetworkOptions`. -/
def lookupAssoc {α : Type} : List (String × α) → String → Option α
  | [], _ => none
  | (k, v) :: rest, key => if k = key then some v else lookupAssoc rest key

/-! ## The kernel sysctl table -/

/-- The kernel sysctl table: dotted key to current string value. -/
abbrev SysctlStore := List (String × String)

/-- Current value of a key, `none` when the key does not exist. -/
def sysctlLookup : SysctlStore → String → Option String
  | [], _ => none
  | (k, v) :: rest, key => if k = key then some v else sysctlLookup rest key

/-- Overwrite the value of an existing key; a missing key is untouched
(the write path errors before reaching this in `set_sysctl_value`). -/
def sysctlUpdate : SysctlStore → String → String → SysctlStore
  | [], _, _ => []
  | (k, v) :: rest, key, val =>
    if k = key then (k, val) :: rest else (k, v) :: sysctlUpdate rest key val

/-- `get_sysctl_value` (setup.rs:172): `Ctl::new` then `value_string`;
fails with a `SysctlError` when the key does not exist. -/
def get_sysctl_value (st : SysctlStore) (key : String) : Except String String :=
  match sysctlLookup st key with
  | some v => .ok v
  | none => .error ("SysctlError: no such sysctl " ++ key)

/-- `set_sysctl_value` (setup.rs:179): `Ctl::new` then `set_value_string`;
fails with a `SysctlError` when the key does not exist, otherwise stores
the value and returns the updated table. -/
def set_sysctl_value (st : SysctlStore) (key val : String) :
    Except String SysctlStore :=
  match sysctlLookup st key with
  | some _ => .ok (sysctlUpdate st key val)
  | none => .error ("SysctlError: no such sysctl " ++ key)

/-! ## Observable events -/

/-- Observable calls made by `Setup::exec`, in program order.
`ensureCall` marks entry to the read-compare-maybe-write sysctl pattern
(lines 58-61 and 107-110 of setup.rs), `sysctlGet`/`sysctlWrite` the
underlying accesses; `pfx` is the truncated rule-handle argument. -/
inductive Event where
  | processNet (name driver : String)
  | bridgeCtor (name : String)
  | macvlanCtor (name : String)
  | ensureCall (key val : String)
  | sysctlGet (key : String)
  | sysctlWrite (key val : String)
  | setupNetwork (name handle : String)
  | setupPortForward (container_id : String) (mappings : List PortMapping)
      (ip : String) (subnet : String) (name : String) (pfx : String)
deriving DecidableEq, Repr

/-- Outcome of a (partial) run: normal success, a recoverable `Err`
return, or a process abort (`panic!` or an out-of-bounds index/slice). -/
inductive RunResult (α : Type) where
  | ok : α → RunResult α
  | error : String → RunResult α
  | panicked : String → RunResult α
deriving DecidableEq, Repr

/-- The sysctl ensure pattern of setup.rs lines 58-61 (and 107-110):
read the current value, write only when it differs from `v`.  Returns the
updated table and the trace of sysctl events. -/
def ensure_sysctl (st : SysctlStore) (key v : String) :
    Except String SysctlStore × List Event :=
  match get_sysctl_value st key with
  | .error e => (.error e, [.ensureCall key v, .sysctlGet key])
  | .ok cur =>
    if cur = v then
      (.ok st, [.ensureCall key v, .sysctlGet key])
    else
      match set_sysctl_value st key v with
      | .error e => (.error e, [.ensureCall key v, .sysctlGet key])
      | .ok st' => (.ok st', [.ensureCall key v, .sysctlGet key, .sysctlWrite key v])

/-! ## External collaborators -/

/-- The external collaborators `Setup::exec` calls into, as oracle
functions: `network::validation::ns_checks`, `NetworkOptions::load`,
`firewall::get_supported_firewall_driver` (its success is what matters
here; the selected driver is represented by the two firewall operation
oracles), the two Network Constructors from `network::core::Core`, the
two firewall-driver operations, and
`network::core_utils::CoreUtils::create_network_hash`. -/
structure Env where
  ns_checks : String → Except String Unit
  load : String → Except String NetworkOptions
  firewall_probe : Except String Unit
  bridge_per_podman_network :
    PerNetworkOptions → Network → String → Except String StatusBlock
  macvlan_per_podman_network :
    PerNetworkOptions → Network → String → Except String StatusBlock
  setup_network : Network → String → Except String Unit
  setup_port_forward :
    String → List PortMapping → String → String → String → String →
      Except String Unit
  create_network_hash : String → Nat → String

/-- Rust `xs[i]` on a `Vec`: the value when in bounds, `none` (the panic
branch) otherwise. -/
def rustIndex {α : Type} (xs : List α) (i : Nat) : Option α :=
  xs.get? i

/-- Rust `&s[0..n]` byte slicing: the first `n` units when `n ≤ s.len()`,
`none` (the panic branch) otherwise.  Modelled at character granularity,
which agrees with byte granularity because the hash service emits only
characters legal in firewall chain names (ASCII). -/
def rustSliceUpTo (s : String) (n : Nat) : Option String :=
  if n ≤ s.length then some (String.mk (s.data.take n)) else none

/-! ## The per-network loop of `Setup::exec` -/

/-- Mutable state threaded through the per-network loop: the kernel
sysctl table and the `response: HashMap<String, StatusBlock>` being
built (as an insertion-ordered list). -/
structure LoopState where
  sysctl : SysctlStore
  response : List (String × StatusBlock)
deriving DecidableEq, Repr

/-- The key `net.ipv4.conf.<iface>.route_localnet` of setup.rs:106. -/
def route_localnet_key (iface : String) : String :=
  "net.ipv4.conf." ++ iface ++ ".route_localnet"

/-- setup.rs:101-112: when the network declares a bound host interface,
ensure `route_localnet = 1` for it; otherwise do nothing. -/
def routeLocalnetStep (st : SysctlStore) (network : Network) :
    Except String SysctlStore × List Event :=
  match network.network_interface with
  | none => (.ok st, [])
  | some iface => ensure_sysctl st (route_localnet_key iface) "1"

/-- setup.rs:95-135: the port-mapping block of the bridge branch.  Runs
whenever `port_mappings` is `Some` (even with zero mappings): ensure
route_localnet, require `static_ips` and `subnets` to be present (error
otherwise), then call `setup_port_forward` with the first static IP, the
first subnet and the handle truncated to `MAX_HASH_SIZE` — indexing an
empty list or slicing a short handle panics, in Rust argument order. -/
def portForwardStep (env : Env) (opts : NetworkOptions) (sysctl : SysctlStore)
    (net_name : String) (network : Network)
    (per_network_opts : PerNetworkOptions) (id_network_hash : String) :
    RunResult SysctlStore × List Event :=
  match opts.port_mappings with
  | none => (.ok sysctl, [])
  | some i =>
    match (routeLocalnetStep sysctl network).1 with
    | .error e => (.error e, (routeLocalnetStep sysctl network).2)
    | .ok sysctl2 =>
      match per_network_opts.static_ips with
      | none =>
        (.error "no container ip provided", (routeLocalnetStep sysctl network).2)
      | some container_ips =>
        match network.subnets with
        | none =>
          (.error "no network address provided", (routeLocalnetStep sysctl network).2)
        | some networks =>
          match rustIndex container_ips 0 with
          | none =>
            (.panicked "index out of bounds: the len is 0",
              (routeLocalnetStep sysctl network).2)
          | some ip =>
            match rustIndex networks 0 with
            | none =>
              (.panicked "index out of bounds: the len is 0",
                (routeLocalnetStep sysctl network).2)
            | some sn =>
              match rustSliceUpTo id_network_hash MAX_HASH_SIZE with
              | none =>
                (.panicked "byte index out of bounds",
                  (routeLocalnetStep sysctl network).2)
              | some pfx =>
                match env.setup_port_forward opts.container_id i ip
                    sn.subnet net_name pfx with
                | .error e =>
                  (.error e, (routeLocalnetStep sysctl network).2 ++
                    [.setupPortForward opts.container_id i ip sn.subnet net_name pfx])
                | .ok _ =>
                  (.ok sysctl2, (routeLocalnetStep sysctl network).2 ++
                    [.setupPortForward opts.container_id i ip sn.subnet net_name pfx])

/-- setup.rs:73-136: the `"bridge"` arm — look up `PerNetworkOptions`,
run the bridge Network Constructor, record its StatusBlock, compute the
rule handle, call `setup_network`, then the port-mapping block. -/
def bridgeStep (env : Env) (opts : NetworkOptions) (nspath : String)
    (st : LoopState) (net_name : String) (network : Network) :
    RunResult LoopState × List Event :=
  match lookupAssoc opts.networks net_name with
  | none =>
    (.error ("network options for network " ++ net_name ++ " not found"), [])
  | some per_network_opts =>
    match env.bridge_per_podman_network per_network_opts network nspath with
    | .error e => (.error e, [.bridgeCtor net_name])
    | .ok status_block =>
      let response2 := st.response ++ [(net_name, status_block)]
      let id_network_hash := env.create_network_hash net_name MAX_HASH_SIZE
      match env.setup_network network id_network_hash with
      | .error e =>
        (.error e, [.bridgeCtor net_name, .setupNetwork net_name id_network_hash])
      | .ok _ =>
        ((match (portForwardStep env opts st.sysctl net_name network
              per_network_opts id_network_hash).1 with
          | .ok sysctl' => .ok { sysctl := sysctl', response := response2 }
          | .error e => .error e
          | .panicked e => .panicked e),
         [.bridgeCtor net_name, .setupNetwork net_name id_network_hash] ++
           (portForwardStep env opts st.sysctl net_name network
             per_network_opts id_network_hash).2)

/-- setup.rs:137-152: the `"macvlan"` arm — look up `PerNetworkOptions`,
run the macvlan Network Constructor, record its StatusBlock.  No firewall
and no sysctl interaction. -/
def macvlanStep (env : Env) (opts : NetworkOptions) (nspath : String)
    (st : LoopState) (net_name : String) (network : Network) :
    RunResult LoopState × List Event :=
  match lookupAssoc opts.networks net_name with
  | none =>
    (.error ("network options for network " ++ net_name ++ " not found"), [])
  | some per_network_opts =>
    match env.macvlan_per_podman_network per_network_opts network nspath with
    | .error e => (.error e, [.macvlanCtor net_name])
    | .ok status_block =>
      (.ok { st with response := st.response ++ [(net_name, status_block)] },
        [.macvlanCtor net_name])

/-- setup.rs:66-162: one iteration of the per-network loop — dispatch on
the driver string; any driver other than `"bridge"` or `"macvlan"` is an
"unknown network driver" error. -/
def processNetwork (env : Env) (opts : NetworkOptions) (nspath : String)
    (st : LoopState) (net_name : String) (network : Network) :
    RunResult LoopState × List Event :=
  if network.driver = "bridge" then
    ((bridgeStep env opts nspath st net_name network).1,
     .processNet net_name network.driver ::
       (bridgeStep env opts nspath st net_name network).2)
  else if network.driver = "macvlan" then
    ((macvlanStep env opts nspath st net_name network).1,
     .processNet net_name network.driver ::
       (macvlanStep env opts nspath st net_name network).2)
  else
    (.error ("unknown network driver " ++ network.driver),
     [.processNet net_name network.driver])

/-- The per-network loop itself: process the networks in order, stopping
at the first error or panic. -/
def processNetworks (env : Env) (opts : NetworkOptions) (nspath : String) :
    LoopState → List (String × Network) → RunResult LoopState × List Event
  | st, [] => (.ok st, [])
  | st, (net_name, network) :: rest =>
    match (processNetwork env opts nspath st net_name network).1 with
    | .ok st' =>
      ((processNetworks env opts nspath st' rest).1,
       (processNetwork env opts nspath st net_name network).2 ++
         (processNetworks env opts nspath st' rest).2)
    | .error e =>
      (.error e, (processNetwork env opts nspath st net_name network).2)
    | .panicked e =>
      (.panicked e, (processNetwork env opts nspath st net_name network).2)

/-- `Setup::exec` (setup.rs:31-169): validate the namespace path, load
the options (a load failure is returned as a structured `NetavarkError`
with `errno = 1`, modelled as its message), probe for a firewall backend
(a probe failure is a `panic!` — a process abort, not an error return),
ensure `net.ipv4.ip_forward = 1`, then run the per-network loop and
return the response map. -/
def exec (env : Env) (network_namespace_path input_file : String)
    (sysctl0 : SysctlStore) :
    RunResult (List (String × StatusBlock)) × List Event :=
  match env.ns_checks network_namespace_path with
  | .error e => (.error ("invalid namespace path: " ++ e), [])
  | .ok _ =>
    match env.load input_file with
    | .error e => (.error e, [])
    | .ok network_options =>
      match env.firewall_probe with
      | .error e => (.panicked e, [])
      | .ok _ =>
        match (ensure_sysctl sysctl0 IPV4_FORWARD "1").1 with
        | .error e => (.error e, (ensure_sysctl sysctl0 IPV4_FORWARD "1").2)
        | .ok st1 =>
          ((match (processNetworks env network_options network_namespace_path
                { sysctl := st1, response := [] }
                network_options.network_info).1 with
            | .ok stF => .ok stF.response
            | .error e => .error e
            | .panicked e => .panicked e),
           (ensure_sysctl sysctl0 IPV4_FORWARD "1").2 ++
             (processNetworks env network_options network_namespace_path
               { sysctl := st1, response := [] }
               network_options.network_info).2)

/-! ## Event observations -/

/-- Is the event a `setup_network` call? -/
def Event.isSetupNetwork : Event → Bool
  | .setupNetwork _ _ => true
  | _ => false

/-- Is the event a `setup_port_forward` call? -/
def Event.isSetupPortForward : Event → Bool
  | .setupPortForward .. => true
  | _ => false

/-- Is the event any sysctl interaction (ensure entry, read or write)? -/
def Event.isSysctl : Event → Bool
  | .ensureCall .. => true
  | .sysctlGet _ => true
  | .sysctlWrite .. => true
  | _ => false

/-- Is the event an underlying sysctl write? -/
def Event.isWriteEv : Event → Bool
  | .sysctlWrite .. => true
  | _ => false

/-- Is the event an entry to the ensure pattern for the given key? -/
def Event.isEnsureOf (key : String) : Event → Bool
  | .ensureCall k _ => k = key
  | _ => false

/-- Is the event the start of one loop iteration? -/
def Event.isProcessNet : Event → Bool
  | .processNet _ _ => true
  | _ => false

/-- The network name of a `setup_network` call event. -/
def Event.snName : Event → Option String
  | .setupNetwork n _ => some n
  | _ => none

/-- The network name of a loop-iteration marker event. -/
def Event.procName : Event → Option String
  | .processNet n _ => some n
  | _ => none

/-- Network names of `setup_network` calls, in order. -/
def setupNetworkNames (evs : List Event) : List String :=
  evs.filterMap Event.snName

/-- Names of the networks the loop started processing, in order. -/
def processedNames (evs : List Event) : List String :=
  evs.filterMap Event.procName

/-- Classification of every event a single loop iteration for network
`n`/`net` can emit after its leading `processNet` marker: the two
constructor calls, one `setup_network` call, route_localnet sysctl
events for the network's bound interface, or a `setup_port_forward`
call. -/
def TailEvent (n : String) (net : Network) (e : Event) : Prop :=
  e = .bridgeCtor n ∨ (∃ h, e = .setupNetwork n h) ∨
  (∃ iface, net.network_interface = some iface ∧
    (e = .ensureCall (route_localnet_key iface) "1" ∨
     e = .sysctlGet (route_localnet_key iface) ∨
     e = .sysctlWrite (route_localnet_key iface) "1")) ∨
  Event.isSetupPortForward e = true ∨ e = .macvlanCtor n

/-! ## Concrete fixtures

A deterministic stand-in hash service and small concrete inputs, used to
instantiate the theorems on closed runs. -/

/-- A deterministic fixed-length hash stand-in: the name padded with
zeroes and truncated to `n` characters (ASCII, length exactly `n` for
every name when `n ≤ 13`). -/
def hashStub (name : String) (n : Nat) : String :=
  String.mk (((name ++ "0000000000000").data).take n)

/-- An environment in which every external collaborator succeeds and the
options document loads to `opts`. -/
def happyEnv (opts : NetworkOptions) : Env where
  ns_checks := fun _ => .ok ()
  load := fun _ => .ok opts
  firewall_probe := .ok ()
  bridge_per_podman_network := fun _ _ _ => .ok ⟨"bridge-status"⟩
  macvlan_per_podman_network := fun _ _ _ => .ok ⟨"macvlan-status"⟩
  setup_network := fun _ _ => .ok ()
  setup_port_forward := fun _ _ _ _ _ _ => .ok ()
  create_network_hash := hashStub

/-- A bridge network with one subnet and no bound host interface. -/
def bridgeNet : Network :=
  { driver := "bridge", network_interface := none,
    subnets := some [{ subnet := "10.88.0.0/24", gateway := some "10.88.0.1" }] }

/-- A macvlan network bound to a host interface. -/
def macNet : Network :=
  { driver := "macvlan", network_interface := some "eth9", subnets := none }

/-- A network with an unsupported driver string. -/
def vlanNet : Network :=
  { driver := "vlan99", network_interface := none, subnets := none }

/-- One bridge network, one static IP, one port mapping. -/
def opts1 : NetworkOptions :=
  { container_id := "ctr1"
    network_info := [("podman", bridgeNet)]
    networks := [("podman",
      { static_ips := some ["10.88.0.5"], interface_name := some "eth0" })]
    port_mappings := some [{ host_port := 8080, container_port := 80, protocol := "tcp" }] }

/-- Like `opts1` but the static-IP list is present yet empty. -/
def optsEmptyIps : NetworkOptions :=
  { opts1 with networks := [("podman",
      { static_ips := some [], interface_name := some "eth0" })] }

/-- Like `opts1` but the port-mapping list is present yet empty. -/
def optsNoMapList : NetworkOptions :=
  { opts1 with port_mappings := some [] }

/-- A macvlan network followed by an unknown-driver network. -/
def opts4 : NetworkOptions :=
  { container_id := "ctr1"
    network_info := [("m1", macNet), ("bad", vlanNet)]
    networks := [("m1", { static_ips := none, interface_name := none }),
                 ("bad", { static_ips := none, interface_name := none })]
    port_mappings := none }

/-- A macvlan network followed by a bridge network, no port mappings. -/
def optsTwo : NetworkOptions :=
  { container_id := "ctr1"
    network_info := [("m1", macNet), ("podman", bridgeNet)]
    networks := [("m1", { static_ips := none, interface_name := none }),
                 ("podman",
                  { static_ips := some ["10.88.0.5"], interface_name := some "eth0" })]
    port_mappings := none }

/-- A sysctl table in which ip_forward is already `"1"`. -/
def store1 : SysctlStore := [(IPV4_FORWARD, "1")]

/-- A sysctl table in which ip_forward is `"0"`. -/
def store0 : SysctlStore := [(IPV4_FORWARD, "0")]

/-! ## Helper lemmas: the sysctl table and the ensure pattern -/

lemma sysctlLookup_update_self (st : SysctlStore) (key v cur : String)
    (h : sysctlLookup st key = some cur) :
    sysctlLookup (sysctlUpdate st key v) key = some v := by
  induction st with
  | nil => simp [sysctlLookup] at h
  | cons p rest ih =>
    obtain ⟨k, w⟩ := p
    by_cases hk : k = key
    · subst hk
      simp [sysctlLookup, sysctlUpdate]
    · simp only [sysctlLookup, sysctlUpdate, if_neg hk] at h ⊢
      exact ih h

/-- Full description of the ensure pattern on an existing key: it
succeeds, does not write when the current value is already `v`, writes
exactly once otherwise, and the event trace records this. -/
lemma ensure_sysctl_of_lookup (st : SysctlStore) (key v cur : String)
    (h : sysctlLookup st key = some cur) :
    ensure_sysctl st key v =
      (.ok (if cur = v then st else sysctlUpdate st key v),
       .ensureCall key v :: .sysctlGet key ::
         (if cur = v then [] else [.sysctlWrite key v])) := by
  unfold ensure_sysctl get_sysctl_value set_sysctl_value
  rw [h]
  by_cases hcv : cur = v
  · simp [hcv]
  · simp [hcv, h]

/-- The trace of the ensure pattern is one of two explicit lists. -/
lemma ensure_sysctl_trace_shape (st : SysctlStore) (key v : String) :
    (ensure_sysctl st key v).2 = [.ensureCall key v, .sysctlGet key] ∨
    (ensure_sysctl st key v).2 =
      [.ensureCall key v, .sysctlGet key, .sysctlWrite key v] := by
  unfold ensure_sysctl
  cases hg : get_sysctl_value st key with
  | error e => left; rfl
  | ok cur =>
    by_cases hcv : cur = v
    · left; simp [hcv]
    · cases hs : set_sysctl_value st key v with
      | error e => left; simp [hcv, hs]
      | ok st' => right; simp [hcv, hs]

/-- Events in an ensure trace: only the three sysctl events for `key`. -/
lemma mem_ensure_sysctl_trace (st : SysctlStore) (key v : String) (e : Event)
    (he : e ∈ (ensure_sysctl st key v).2) :
    e = .ensureCall key v ∨ e = .sysctlGet key ∨ e = .sysctlWrite key v := by
  rcases ensure_sysctl_trace_shape st key v with h | h <;>
    rw [h] at he <;> simp at he <;> tauto

lemma route_localnet_key_ne (iface : String) :
    route_localnet_key iface ≠ IPV4_FORWARD := by
  intro h
  have hl := congrArg String.length h
  have h14 : ("net.ipv4.conf." : String).length = 14 := rfl
  have h15 : (".route_localnet" : String).length = 15 := rfl
  have h19 : ("net.ipv4.ip_forward" : String).length = 19 := rfl
  rw [route_localnet_key, IPV4_FORWARD] at hl
  rw [String.length_append, String.length_append, h14, h15, h19] at hl
  omega

/-- Events in a route_localnet step trace: only sysctl events whose key
is a `route_localnet` key of the network's bound interface. -/
lemma mem_routeLocalnet_trace (st : SysctlStore) (network : Network) (e : Event)
    (he : e ∈ (routeLocalnetStep st network).2) :
    ∃ iface, network.network_interface = some iface ∧
      (e = .ensureCall (route_localnet_key iface) "1" ∨
       e = .sysctlGet (route_localnet_key iface) ∨
       e = .sysctlWrite (route_localnet_key iface) "1") := by
  unfold routeLocalnetStep at he
  cases hni : network.network_interface with
  | none => rw [hni] at he; simp at he
  | some iface =>
    rw [hni] at he
    exact ⟨iface, rfl, mem_ensure_sysctl_trace st (route_localnet_key iface) "1" e he⟩

/-! ## Helper lemmas: traces of the per-network steps -/

/-- Events in a port-forward block trace: route_localnet sysctl events
or a `setup_port_forward` call. -/
lemma mem_portForward_trace (env : Env) (opts : NetworkOptions)
    (sysctl : SysctlStore) (net_name : String) (network : Network)
    (pno : PerNetworkOptions) (hash : String) (e : Event)
    (he : e ∈ (portForwardStep env opts sysctl net_name network pno hash).2) :
    (∃ iface, network.network_interface = some iface ∧
      (e = .ensureCall (route_localnet_key iface) "1" ∨
       e = .sysctlGet (route_localnet_key iface) ∨
       e = .sysctlWrite (route_localnet_key iface) "1")) ∨
    Event.isSetupPortForward e = true := by
  unfold portForwardStep at he
  split at he
  · simp at he
  · split at he
    · exact Or.inl (mem_routeLocalnet_trace _ _ _ he)
    · split at he
      · exact Or.inl (mem_routeLocalnet_trace _ _ _ he)
      · split at he
        · exact Or.inl (mem_routeLocalnet_trace _ _ _ he)
        · split at he
          · exact Or.inl (mem_routeLocalnet_trace _ _ _ he)
          · split at he
            · exact Or.inl (mem_routeLocalnet_trace _ _ _ he)
            · split at he
              · exact Or.inl (mem_routeLocalnet_trace _ _ _ he)
              · split at he <;>
                · rcases List.mem_append.mp he with h | h
                  · exact Or.inl (mem_routeLocalnet_trace _ _ _ h)
                  · simp at h
                    subst h
                    right
                    rfl

/-- The macvlan arm emits at most its constructor-call event. -/
lemma mem_macvlanStep_trace (env : Env) (opts : NetworkOptions)
    (nspath : String) (st : LoopState) (net_name : String) (network : Network)
    (e : Event) (he : e ∈ (macvlanStep env opts nspath st net_name network).2) :
    e = .macvlanCtor net_name := by
  unfold macvlanStep at he
  split at he
  · simp at he
  · split at he <;> simpa using he

/-- Events in a bridge-arm trace are `TailEvent`s. -/
lemma mem_bridgeStep_trace (env : Env) (opts : NetworkOptions)
    (nspath : String) (st : LoopState) (net_name : String) (network : Network)
    (e : Event) (he : e ∈ (bridgeStep env opts nspath st net_name network).2) :
    TailEvent net_name network e := by
  unfold TailEvent
  simp only [bridgeStep] at he
  split at he
  · simp at he
  · split at he
    · simp at he
      subst he
      exact Or.inl rfl
    · split at he
      · simp at he
        rcases he with he | he
        · exact Or.inl he
        · exact Or.inr (Or.inl ⟨_, he⟩)
      · rcases List.mem_append.mp he with h | h
        · simp at h
          rcases h with h | h
          · exact Or.inl h
          · exact Or.inr (Or.inl ⟨_, h⟩)
        · rcases mem_portForward_trace _ _ _ _ _ _ _ _ h with h | h
          · exact Or.inr (Or.inr (Or.inl h))
          · exact Or.inr (Or.inr (Or.inr (Or.inl h)))

/-- One loop iteration: the trace starts with the `processNet` marker
and everything after it is a `TailEvent`. -/
lemma processNetwork_trace_shape (env : Env) (opts : NetworkOptions)
    (nspath : String) (st : LoopState) (net_name : String) (network : Network) :
    ∃ tail,
      (processNetwork env opts nspath st net_name network).2 =
        .processNet net_name network.driver :: tail ∧
      ∀ e ∈ tail, TailEvent net_name network e := by
  unfold processNetwork
  split_ifs with h1 h2
  · exact ⟨_, rfl, fun e he => mem_bridgeStep_trace _ _ _ _ _ _ e he⟩
  · exact ⟨_, rfl, fun e he => by
      rw [mem_macvlanStep_trace _ _ _ _ _ _ e he]
      exact Or.inr (Or.inr (Or.inr (Or.inr rfl)))⟩
  · exact ⟨[], rfl, by simp⟩

/-! ## Helper lemmas: consequences of the trace classification -/

lemma tailEvent_not_processNet {n : String} {net : Network} {e : Event}
    (h : TailEvent n net e) : Event.isProcessNet e = false := by
  rcases h with h | ⟨hh, h⟩ | ⟨i, _, h | h | h⟩ | h | h
  · subst h; rfl
  · subst h; rfl
  · subst h; rfl
  · subst h; rfl
  · subst h; rfl
  · cases e <;> simp_all [Event.isSetupPortForward, Event.isProcessNet]
  · subst h; rfl

lemma tailEvent_not_ensureOf_ipforward {n : String} {net : Network} {e : Event}
    (h : TailEvent n net e) : Event.isEnsureOf IPV4_FORWARD e = false := by
  rcases h with h | ⟨hh, h⟩ | ⟨i, _, h | h | h⟩ | h | h
  · subst h; rfl
  · subst h; rfl
  · subst h
    simp [Event.isEnsureOf]
    exact route_localnet_key_ne i
  · subst h; rfl
  · subst h; rfl
  · cases e <;> simp_all [Event.isSetupPortForward, Event.isEnsureOf]
  · subst h; rfl

lemma countP_eq_zero_of (l : List Event) (p : Event → Bool)
    (h : ∀ e ∈ l, p e = false) : l.countP p = 0 := by
  rw [List.countP_eq_zero]
  intro e he
  simp [h e he]

lemma processNetwork_countP_zero (env : Env) (opts : NetworkOptions)
    (nspath : String) (st : LoopState) (net_name : String) (network : Network)
    (p : Event → Bool)
    (hp : p (.processNet net_name network.driver) = false)
    (ht : ∀ e, TailEvent net_name network e → p e = false) :
    ((processNetwork env opts nspath st net_name network).2).countP p = 0 := by
  obtain ⟨tail, htr, hmem⟩ :=
    processNetwork_trace_shape env opts nspath st net_name network
  rw [htr, List.countP_cons, hp]
  simp only [Bool.false_eq_true, if_false, Nat.add_zero]
  exact countP_eq_zero_of tail p fun e he => ht e (hmem e he)

lemma processNetworks_countP_zero (env : Env) (opts : NetworkOptions)
    (nspath : String) (p : Event → Bool)
    (hp : ∀ n d, p (.processNet n d) = false)
    (ht : ∀ n net e, TailEvent n net e → p e = false) :
    ∀ (nets : List (String × Network)) (st : LoopState),
      ((processNetworks env opts nspath st nets).2).countP p = 0 := by
  intro nets
  induction nets with
  | nil => intro st; simp [processNetworks]
  | cons q rest ih =>
    intro st
    obtain ⟨n, net⟩ := q
    have hstep := fun st =>
      processNetwork_countP_zero env opts nspath st n net p (hp n net.driver) (ht n net)
    unfold processNetworks
    split
    · rw [List.countP_append, hstep st, ih]
    · exact hstep st
    · exact hstep st

lemma processNetwork_processedNames (env : Env) (opts : NetworkOptions)
    (nspath : String) (st : LoopState) (net_name : String) (network : Network) :
    processedNames (processNetwork env opts nspath st net_name network).2 =
      [net_name] := by
  obtain ⟨tail, htr, hmem⟩ :=
    processNetwork_trace_shape env opts nspath st net_name network
  unfold processedNames
  rw [htr, List.filterMap_cons]
  have h1 : Event.procName (.processNet net_name network.driver) =
      some net_name := rfl
  rw [h1]
  have h2 : tail.filterMap Event.procName = [] := by
    rw [List.filterMap_eq_nil_iff]
    intro e he
    have := tailEvent_not_processNet (hmem e he)
    cases e <;> simp_all [Event.procName, Event.isProcessNet]
  rw [h2]

/-! ## Helper lemmas: evaluation and inversion of the steps -/

/-- The port-forward block never calls `setup_network`. -/
lemma portForward_countP_setupNetwork (env : Env) (opts : NetworkOptions)
    (sysctl : SysctlStore) (net_name : String) (network : Network)
    (pno : PerNetworkOptions) (hash : String) :
    ((portForwardStep env opts sysctl net_name network pno hash).2).countP
      Event.isSetupNetwork = 0 := by
  apply countP_eq_zero_of
  intro e he
  rcases mem_portForward_trace _ _ _ _ _ _ _ _ he with ⟨i, _, h | h | h⟩ | h
  · subst h; rfl
  · subst h; rfl
  · subst h; rfl
  · cases e <;> simp_all [Event.isSetupPortForward, Event.isSetupNetwork]

/-- A successful bridge arm calls `setup_network` exactly once. -/
lemma bridgeStep_ok_countSN (env : Env) (opts : NetworkOptions)
    (nspath : String) (st : LoopState) (net_name : String) (network : Network)
    (st' : LoopState)
    (h : (bridgeStep env opts nspath st net_name network).1 = .ok st') :
    ((bridgeStep env opts nspath st net_name network).2).countP
      Event.isSetupNetwork = 1 := by
  simp only [bridgeStep] at h ⊢
  split at h
  · simp at h
  · split at h
    · simp at h
    · split at h
      · simp at h
      · rw [List.countP_append, portForward_countP_setupNetwork]
        rfl

/-- The macvlan arm never calls `setup_network`. -/
lemma macvlanStep_countSN (env : Env) (opts : NetworkOptions)
    (nspath : String) (st : LoopState) (net_name : String) (network : Network) :
    ((macvlanStep env opts nspath st net_name network).2).countP
      Event.isSetupNetwork = 0 := by
  apply countP_eq_zero_of
  intro e he
  rw [mem_macvlanStep_trace _ _ _ _ _ _ e he]
  rfl

/-- A loop iteration with an unsupported driver fails with the
"unknown network driver" error after emitting only its marker event. -/
lemma processNetwork_unknown (env : Env) (opts : NetworkOptions)
    (nspath : String) (st : LoopState) (net_name : String) (network : Network)
    (hb : network.driver ≠ "bridge") (hm : network.driver ≠ "macvlan") :
    processNetwork env opts nspath st net_name network =
      (.error ("unknown network driver " ++ network.driver),
       [.processNet net_name network.driver]) := by
  unfold processNetwork
  rw [if_neg hb, if_neg hm]

/-- Equation lemma: the loop on the empty network list. -/
lemma processNetworks_nil (env : Env) (opts : NetworkOptions)
    (nspath : String) (st : LoopState) :
    processNetworks env opts nspath st [] = (.ok st, []) := rfl

/-- Equation lemma: one unfolding of the loop on a nonempty list. -/
lemma processNetworks_cons (env : Env) (opts : NetworkOptions)
    (nspath : String) (st : LoopState) (n : String) (net : Network)
    (rest : List (String × Network)) :
    processNetworks env opts nspath st ((n, net) :: rest) =
      (match (processNetwork env opts nspath st n net).1 with
       | .ok st' =>
         ((processNetworks env opts nspath st' rest).1,
          (processNetwork env opts nspath st n net).2 ++
            (processNetworks env opts nspath st' rest).2)
       | .error e => (.error e, (processNetwork env opts nspath st n net).2)
       | .panicked e =>
         (.panicked e, (processNetwork env opts nspath st n net).2)) := rfl

/-- Loop unfolding when the head iteration succeeds. -/
lemma processNetworks_cons_ok (env : Env) (opts : NetworkOptions)
    (nspath : String) (st : LoopState) (n : String) (net : Network)
    (rest : List (String × Network)) (st1 : LoopState)
    (hr : (processNetwork env opts nspath st n net).1 = .ok st1) :
    processNetworks env opts nspath st ((n, net) :: rest) =
      ((processNetworks env opts nspath st1 rest).1,
       (processNetwork env opts nspath st n net).2 ++
         (processNetworks env opts nspath st1 rest).2) := by
  rw [processNetworks_cons, hr]

/-- Outcome of the loop when the head iteration succeeds. -/
lemma processNetworks_cons_ok_fst (env : Env) (opts : NetworkOptions)
    (nspath : String) (st : LoopState) (n : String) (net : Network)
    (rest : List (String × Network)) (st1 : LoopState)
    (hr : (processNetwork env opts nspath st n net).1 = .ok st1) :
    (processNetworks env opts nspath st ((n, net) :: rest)).1 =
      (processNetworks env opts nspath st1 rest).1 := by
  rw [processNetworks_cons_ok env opts nspath st n net rest st1 hr]

/-- Trace of the loop when the head iteration succeeds. -/
lemma processNetworks_cons_ok_snd (env : Env) (opts : NetworkOptions)
    (nspath : String) (st : LoopState) (n : String) (net : Network)
    (rest : List (String × Network)) (st1 : LoopState)
    (hr : (processNetwork env opts nspath st n net).1 = .ok st1) :
    (processNetworks env opts nspath st ((n, net) :: rest)).2 =
      (processNetwork env opts nspath st n net).2 ++
        (processNetworks env opts nspath st1 rest).2 := by
  rw [processNetworks_cons_ok env opts nspath st n net rest st1 hr]

/-- Loop unfolding when the head iteration fails with an error. -/
lemma processNetworks_cons_error (env : Env) (opts : NetworkOptions)
    (nspath : String) (st : LoopState) (n : String) (net : Network)
    (rest : List (String × Network)) (e : String)
    (hr : (processNetwork env opts nspath st n net).1 = .error e) :
    processNetworks env opts nspath st ((n, net) :: rest) =
      (.error e, (processNetwork env opts nspath st n net).2) := by
  rw [processNetworks_cons, hr]

/-- Loop unfolding when the head iteration panics. -/
lemma processNetworks_cons_panicked (env : Env) (opts : NetworkOptions)
    (nspath : String) (st : LoopState) (n : String) (net : Network)
    (rest : List (String × Network)) (e : String)
    (hr : (processNetwork env opts nspath st n net).1 = .panicked e) :
    processNetworks env opts nspath st ((n, net) :: rest) =
      (.panicked e, (processNetwork env opts nspath st n net).2) := by
  rw [processNetworks_cons, hr]

/-- A successful loop iteration calls `setup_network` once when the
driver is `"bridge"` and never otherwise. -/
lemma processNetwork_ok_countSN (env : Env) (opts : NetworkOptions)
    (nspath : String) (st : LoopState) (net_name : String) (network : Network)
    (st' : LoopState)
    (h : (processNetwork env opts nspath st net_name network).1 = .ok st') :
    ((processNetwork env opts nspath st net_name network).2).countP
      Event.isSetupNetwork = (if network.driver = "bridge" then 1 else 0) := by
  unfold processNetwork at h ⊢
  split_ifs at h ⊢ with h1 h2
  · simp only [List.countP_cons]
    rw [bridgeStep_ok_countSN env opts nspath st net_name network st' (by simpa using h)]
    simp [Event.isSetupNetwork]
  · simp only [List.countP_cons]
    rw [macvlanStep_countSN]
    simp [Event.isSetupNetwork]

/-- A successful loop run calls `setup_network` exactly once per
bridge-driver network. -/
lemma processNetworks_ok_countSN (env : Env) (opts : NetworkOptions)
    (nspath : String) :
    ∀ (nets : List (String × Network)) (st : LoopState) (stF : LoopState),
      (processNetworks env opts nspath st nets).1 = .ok stF →
      ((processNetworks env opts nspath st nets).2).countP Event.isSetupNetwork =
        (nets.filter fun q => q.2.driver = "bridge").length := by
  intro nets
  induction nets with
  | nil =>
    intro st stF _
    simp [processNetworks]
  | cons q rest ih =>
    intro st stF h
    obtain ⟨n, net⟩ := q
    cases hr : (processNetwork env opts nspath st n net).1 with
    | ok st1 =>
      rw [processNetworks_cons_ok_fst env opts nspath st n net rest st1 hr] at h
      rw [processNetworks_cons_ok_snd env opts nspath st n net rest st1 hr]
      rw [List.countP_append,
        processNetwork_ok_countSN env opts nspath st n net st1 hr,
        ih st1 stF h, List.filter_cons]
      by_cases hd : net.driver = "bridge" <;> simp [hd, Nat.add_comm]
    | error e =>
      rw [processNetworks_cons_error env opts nspath st n net rest e hr] at h
      simp at h
    | panicked e =>
      rw [processNetworks_cons_panicked env opts nspath st n net rest e hr] at h
      simp at h

/-- A successful loop run starts an iteration for every network, in
list order. -/
lemma processNetworks_ok_processedNames (env : Env) (opts : NetworkOptions)
    (nspath : String) :
    ∀ (nets : List (String × Network)) (st : LoopState) (stF : LoopState),
      (processNetworks env opts nspath st nets).1 = .ok stF →
      processedNames (processNetworks env opts nspath st nets).2 =
        nets.map Prod.fst := by
  intro nets
  induction nets with
  | nil =>
    intro st stF _
    simp [processNetworks, processedNames]
  | cons q rest ih =>
    intro st stF h
    obtain ⟨n, net⟩ := q
    cases hr : (processNetwork env opts nspath st n net).1 with
    | ok st1 =>
      rw [processNetworks_cons_ok_fst env opts nspath st n net rest st1 hr] at h
      rw [processNetworks_cons_ok_snd env opts nspath st n net rest st1 hr]
      unfold processedNames
      rw [List.filterMap_append]
      have h1 := processNetwork_processedNames env opts nspath st n net
      unfold processedNames at h1
      rw [h1]
      have h2 := ih st1 stF h
      unfold processedNames at h2
      rw [h2, List.map_cons]
      rfl
    | error e =>
      rw [processNetworks_cons_error env opts nspath st n net rest e hr] at h
      simp at h
    | panicked e =>
      rw [processNetworks_cons_panicked env opts nspath st n net rest e hr] at h
      simp at h

/-- Appending a network with an unsupported driver after a prefix that
succeeds: the loop runs the whole prefix, then fails with the
"unknown network driver" error, emitting nothing for the remaining
networks. -/
lemma processNetworks_unknown_driver (env : Env) (opts : NetworkOptions)
    (nspath : String) (nm : String) (net : Network)
    (hb : net.driver ≠ "bridge") (hm : net.driver ≠ "macvlan")
    (rest : List (String × Network)) :
    ∀ (pre : List (String × Network)) (st st' : LoopState) (evPre : List Event),
      processNetworks env opts nspath st pre = (.ok st', evPre) →
      processNetworks env opts nspath st (pre ++ (nm, net) :: rest) =
        (.error ("unknown network driver " ++ net.driver),
         evPre ++ [.processNet nm net.driver]) := by
  intro pre
  induction pre with
  | nil =>
    intro st st' evPre h
    rw [processNetworks_nil] at h
    simp only [Prod.mk.injEq] at h
    obtain ⟨-, h2⟩ := h
    subst h2
    rw [List.nil_append, processNetworks_cons,
      processNetwork_unknown env opts nspath st nm net hb hm]
    rfl
  | cons q pre' ih =>
    intro st st' evPre h
    obtain ⟨n1, net1⟩ := q
    cases hr : (processNetwork env opts nspath st n1 net1).1 with
    | ok st1 =>
      rw [processNetworks_cons_ok env opts nspath st n1 net1 pre' st1 hr] at h
      simp only [Prod.mk.injEq] at h
      obtain ⟨h1, h2⟩ := h
      have hpre : processNetworks env opts nspath st1 pre' =
          (.ok st', (processNetworks env opts nspath st1 pre').2) :=
        Prod.ext h1 rfl
      rw [List.cons_append,
        processNetworks_cons_ok env opts nspath st n1 net1
          (pre' ++ (nm, net) :: rest) st1 hr,
        ih st1 st' (processNetworks env opts nspath st1 pre').2 hpre]
      rw [← h2, List.append_assoc]
    | error e =>
      rw [processNetworks_cons_error env opts nspath st n1 net1 pre' e hr] at h
      simp at h
    | panicked e =>
      rw [processNetworks_cons_panicked env opts nspath st n1 net1 pre' e hr] at h
      simp at h

/-! ## Helper lemmas: evaluation of `exec` and the port-forward block -/

/-- Evaluation of `exec` once the namespace check, the config load, the
firewall probe and the ip_forward ensure have succeeded. -/
lemma exec_eval (env : Env) (p f : String) (sysctl0 : SysctlStore)
    (opts : NetworkOptions) (st1 : SysctlStore)
    (hns : env.ns_checks p = .ok ())
    (hload : env.load f = .ok opts)
    (hfw : env.firewall_probe = .ok ())
    (hens : (ensure_sysctl sysctl0 IPV4_FORWARD "1").1 = .ok st1) :
    exec env p f sysctl0 =
      ((match (processNetworks env opts p { sysctl := st1, response := [] }
            opts.network_info).1 with
        | .ok stF => .ok stF.response
        | .error e => .error e
        | .panicked e => .panicked e),
       (ensure_sysctl sysctl0 IPV4_FORWARD "1").2 ++
         (processNetworks env opts p { sysctl := st1, response := [] }
           opts.network_info).2) := by
  unfold exec
  rw [hns, hload, hfw, hens]

/-- The port-forward block does nothing when no port mappings were
requested at all. -/
lemma portForwardStep_none (env : Env) (opts : NetworkOptions)
    (sysctl : SysctlStore) (net_name : String) (network : Network)
    (pno : PerNetworkOptions) (hash : String)
    (h : opts.port_mappings = none) :
    portForwardStep env opts sysctl net_name network pno hash =
      (.ok sysctl, []) := by
  unfold portForwardStep
  rw [h]

/-- With port mappings present, an absent static-IP list is an error. -/
lemma portForwardStep_no_ip (env : Env) (opts : NetworkOptions)
    (sysctl sysctl2 : SysctlStore) (net_name : String) (network : Network)
    (pno : PerNetworkOptions) (hash : String) (mappings : List PortMapping)
    (hpm : opts.port_mappings = some mappings)
    (hloc : (routeLocalnetStep sysctl network).1 = .ok sysctl2)
    (hips : pno.static_ips = none) :
    portForwardStep env opts sysctl net_name network pno hash =
      (.error "no container ip provided", (routeLocalnetStep sysctl network).2) := by
  simp only [portForwardStep, hpm, hloc, hips]

/-- With port mappings present, an absent subnet list is an error. -/
lemma portForwardStep_no_subnet (env : Env) (opts : NetworkOptions)
    (sysctl sysctl2 : SysctlStore) (net_name : String) (network : Network)
    (pno : PerNetworkOptions) (hash : String) (mappings : List PortMapping)
    (ips : List String)
    (hpm : opts.port_mappings = some mappings)
    (hloc : (routeLocalnetStep sysctl network).1 = .ok sysctl2)
    (hips : pno.static_ips = some ips)
    (hsub : network.subnets = none) :
    portForwardStep env opts sysctl net_name network pno hash =
      (.error "no network address provided", (routeLocalnetStep sysctl network).2) := by
  simp only [portForwardStep, hpm, hloc, hips, hsub]

/-- An empty (but present) static-IP list panics on `container_ips[0]`. -/
lemma portForwardStep_empty_ips (env : Env) (opts : NetworkOptions)
    (sysctl sysctl2 : SysctlStore) (net_name : String) (network : Network)
    (pno : PerNetworkOptions) (hash : String) (mappings : List PortMapping)
    (subs : List Subnet)
    (hpm : opts.port_mappings = some mappings)
    (hloc : (routeLocalnetStep sysctl network).1 = .ok sysctl2)
    (hips : pno.static_ips = some [])
    (hsub : network.subnets = some subs) :
    portForwardStep env opts sysctl net_name network pno hash =
      (.panicked "index out of bounds: the len is 0",
       (routeLocalnetStep sysctl network).2) := by
  simp only [portForwardStep, hpm, hloc, hips, hsub, rustIndex, List.get?]

/-- An empty (but present) subnet list panics on `networks[0]`. -/
lemma portForwardStep_empty_subnets (env : Env) (opts : NetworkOptions)
    (sysctl sysctl2 : SysctlStore) (net_name : String) (network : Network)
    (pno : PerNetworkOptions) (hash : String) (mappings : List PortMapping)
    (ip : String) (ips : List String)
    (hpm : opts.port_mappings = some mappings)
    (hloc : (routeLocalnetStep sysctl network).1 = .ok sysctl2)
    (hips : pno.static_ips = some (ip :: ips))
    (hsub : network.subnets = some []) :
    portForwardStep env opts sysctl net_name network pno hash =
      (.panicked "index out of bounds: the len is 0",
       (routeLocalnetStep sysctl network).2) := by
  simp only [portForwardStep, hpm, hloc, hips, hsub, rustIndex, List.get?]

/-- On the success path the port-forward block's trace appends exactly
one `setup_port_forward` event, built from the first static IP, the
first subnet and the truncated handle. -/
lemma portForwardStep_trace_eval (env : Env) (opts : NetworkOptions)
    (sysctl sysctl2 : SysctlStore) (net_name : String) (network : Network)
    (pno : PerNetworkOptions) (hash : String) (mappings : List PortMapping)
    (ip : String) (ips : List String) (sn : Subnet) (sns : List Subnet)
    (hpm : opts.port_mappings = some mappings)
    (hloc : (routeLocalnetStep sysctl network).1 = .ok sysctl2)
    (hips : pno.static_ips = some (ip :: ips))
    (hsub : network.subnets = some (sn :: sns))
    (hlen : MAX_HASH_SIZE ≤ hash.length) :
    (portForwardStep env opts sysctl net_name network pno hash).2 =
      (routeLocalnetStep sysctl network).2 ++
        [.setupPortForward opts.container_id mappings ip sn.subnet net_name
          (String.mk (hash.data.take MAX_HASH_SIZE))] := by
  have hsl : rustSliceUpTo hash MAX_HASH_SIZE =
      some (String.mk (hash.data.take MAX_HASH_SIZE)) := by
    unfold rustSliceUpTo
    rw [if_pos hlen]
  simp only [portForwardStep, hpm, hloc, hips, hsub, rustIndex, List.get?, hsl]
  cases env.setup_port_forward opts.container_id mappings ip sn.subnet net_name
    (String.mk (hash.data.take MAX_HASH_SIZE)) <;> rfl

/-- With no port mappings at all, the bridge arm records no
`setup_port_forward` call. -/
lemma bridgeStep_countSPF_none (env : Env) (opts : NetworkOptions)
    (nspath : String) (st : LoopState) (net_name : String) (network : Network)
    (hpm : opts.port_mappings = none) :
    ((bridgeStep env opts nspath st net_name network).2).countP
      Event.isSetupPortForward = 0 := by
  simp only [bridgeStep]
  split
  · rfl
  · split
    · rfl
    · split
      · rfl
      · rw [List.countP_append,
          portForwardStep_none env opts st.sysctl net_name network _ _ hpm]
        rfl

/-- The macvlan arm records no event satisfying `p` unless
`p` holds of its constructor-call event. -/
lemma macvlanStep_countP_zero (env : Env) (opts : NetworkOptions)
    (nspath : String) (st : LoopState) (net_name : String) (network : Network)
    (p : Event → Bool) (hm : p (.macvlanCtor net_name) = false) :
    ((macvlanStep env opts nspath st net_name network).2).countP p = 0 :=
  countP_eq_zero_of _ _ fun e he => by
    rw [mem_macvlanStep_trace _ _ _ _ _ _ e he]
    exact hm

/-- With no port mappings at all, a loop iteration records no
`setup_port_forward` call. -/
lemma processNetwork_countSPF_none (env : Env) (opts : NetworkOptions)
    (nspath : String) (st : LoopState) (net_name : String) (network : Network)
    (hpm : opts.port_mappings = none) :
    ((processNetwork env opts nspath st net_name network).2).countP
      Event.isSetupPortForward = 0 := by
  unfold processNetwork
  split_ifs
  · rw [List.countP_cons,
      bridgeStep_countSPF_none env opts nspath st net_name network hpm]
    rfl
  · rw [List.countP_cons,
      macvlanStep_countP_zero env opts nspath st net_name network _ rfl]
    rfl
  · rfl

/-- With no port mappings at all, the whole loop records no
`setup_port_forward` call. -/
lemma processNetworks_countSPF_none (env : Env) (opts : NetworkOptions)
    (nspath : String) (hpm : opts.port_mappings = none) :
    ∀ (nets : List (String × Network)) (st : LoopState),
      ((processNetworks env opts nspath st nets).2).countP
        Event.isSetupPortForward = 0 := by
  intro nets
  induction nets with
  | nil => intro st; rfl
  | cons q rest ih =>
    intro st
    obtain ⟨n, net⟩ := q
    cases hr : (processNetwork env opts nspath st n net).1 with
    | ok st1 =>
      rw [processNetworks_cons_ok_snd env opts nspath st n net rest st1 hr,
        List.countP_append,
        processNetwork_countSPF_none env opts nspath st n net hpm, ih st1]
    | error e =>
      rw [processNetworks_cons_error env opts nspath st n net rest e hr]
      exact processNetwork_countSPF_none env opts nspath st n net hpm
    | panicked e =>
      rw [processNetworks_cons_panicked env opts nspath st n net rest e hr]
      exact processNetwork_countSPF_none env opts nspath st n net hpm

/-- The route_localnet trace never contains a `setup_port_forward`
event. -/
lemma routeLocalnet_countSPF (sysctl : SysctlStore) (network : Network) :
    ((routeLocalnetStep sysctl network).2).countP Event.isSetupPortForward = 0 :=
  countP_eq_zero_of _ _ fun e he => by
    rcases mem_routeLocalnet_trace _ _ _ he with ⟨i, _, h | h | h⟩ <;>
      (subst h; rfl)

/-! ## Claim theorems -/

/-- C1: the claim says a failed firewall-backend probe is surfaced as an
ordinary recoverable error (`NoFirewallBackend`) returned to the caller.
The code (setup.rs:53) instead runs `panic!`, aborting the process: on a
concrete run whose probe reports no supported backend, `exec` ends in
the `panicked` outcome, not an `error` return.  This matches the spec's
own statement that the current aborting behavior is a defect. -/
theorem exec_panics_when_no_firewall_backend :
    exec { happyEnv opts1 with
            firewall_probe := .error "could not find a firewall driver" }
        "/ns" "opts.json" store1 =
      (.panicked "could not find a firewall driver", []) := by
  rfl

/-- C5: the ensure pattern on an existing sysctl key reads the current
value, issues zero underlying writes when it already equals `v` and
exactly one when it differs, succeeds, and leaves the stored value equal
to `v`. -/
theorem ensure_sysctl_spec (st : SysctlStore) (key v cur : String)
    (h : sysctlLookup st key = some cur) :
    ∃ st',
      ensure_sysctl st key v =
        (.ok st',
         .ensureCall key v :: .sysctlGet key ::
           (if cur = v then [] else [.sysctlWrite key v])) ∧
      sysctlLookup st' key = some v ∧
      ((ensure_sysctl st key v).2).countP Event.isWriteEv =
        (if cur = v then 0 else 1) := by
  refine ⟨if cur = v then st else sysctlUpdate st key v,
    ensure_sysctl_of_lookup st key v cur h, ?_, ?_⟩
  · by_cases hcv : cur = v
    · rw [if_pos hcv, h, hcv]
    · rw [if_neg hcv]
      exact sysctlLookup_update_self st key v cur h
  · rw [ensure_sysctl_of_lookup st key v cur h]
    by_cases hcv : cur = v <;>
      simp [hcv, List.countP_cons, Event.isWriteEv]

/-- C5 witness: on the table where ip_forward is `"0"`, ensuring `"1"`
issues exactly one write and stores `"1"`. -/
theorem ensure_sysctl_spec_witness :
    ∃ st',
      ensure_sysctl store0 IPV4_FORWARD "1" =
        (.ok st',
         .ensureCall IPV4_FORWARD "1" :: .sysctlGet IPV4_FORWARD ::
           (if "0" = "1" then [] else [.sysctlWrite IPV4_FORWARD "1"])) ∧
      sysctlLookup st' IPV4_FORWARD = some "1" ∧
      ((ensure_sysctl store0 IPV4_FORWARD "1").2).countP Event.isWriteEv =
        (if "0" = "1" then 0 else 1) :=
  ensure_sysctl_spec store0 IPV4_FORWARD "1" "0" (by rfl)

/-- C10: whenever the hash service honours its contract of returning at
least `MAX_HASH_SIZE` units, the byte-range truncation
`id_network_hash[0..MAX_HASH_SIZE]` is total: the slice succeeds (its
panic branch is unreachable) and yields a prefix of exactly
`MAX_HASH_SIZE` characters, for every network name. -/
theorem hash_slice_total (env : Env) (name : String)
    (hlen : MAX_HASH_SIZE ≤ (env.create_network_hash name MAX_HASH_SIZE).length) :
    ∃ pfx,
      rustSliceUpTo (env.create_network_hash name MAX_HASH_SIZE) MAX_HASH_SIZE =
        some pfx ∧
      pfx.length = MAX_HASH_SIZE := by
  refine ⟨String.mk ((env.create_network_hash name MAX_HASH_SIZE).data.take
    MAX_HASH_SIZE), ?_, ?_⟩
  · unfold rustSliceUpTo
    rw [if_pos hlen]
  · show ((env.create_network_hash name MAX_HASH_SIZE).data.take
      MAX_HASH_SIZE).length = MAX_HASH_SIZE
    rw [List.length_take]
    exact Nat.min_eq_left hlen

/-- C10 witness: the stand-in hash service returns 13 characters for the
name `"podman"`, and the slice succeeds on it. -/
theorem hash_slice_total_witness :
    ∃ pfx,
      rustSliceUpTo ((happyEnv opts1).create_network_hash "podman" MAX_HASH_SIZE)
        MAX_HASH_SIZE = some pfx ∧
      pfx.length = MAX_HASH_SIZE :=
  hash_slice_total (happyEnv opts1) "podman" (by decide)

/-- C8: on the success path of a bridge network's port-mapping block
with at least one static IP and at least one subnet, the
`setup_port_forward` call is recorded with exactly the first static IP
and the first subnet — the tails `ips` and `sns` do not appear in the
event — and its rule-handle argument is the handle truncated to exactly
`MAX_HASH_SIZE` characters. -/
theorem port_forward_uses_first_ip_and_subnet (env : Env)
    (opts : NetworkOptions) (sysctl sysctl2 : SysctlStore) (net_name : String)
    (network : Network) (pno : PerNetworkOptions) (hash : String)
    (mappings : List PortMapping) (ip : String) (ips : List String)
    (sn : Subnet) (sns : List Subnet)
    (hpm : opts.port_mappings = some mappings)
    (hloc : (routeLocalnetStep sysctl network).1 = .ok sysctl2)
    (hips : pno.static_ips = some (ip :: ips))
    (hsub : network.subnets = some (sn :: sns))
    (hlen : MAX_HASH_SIZE ≤ hash.length) :
    ∃ pfx,
      rustSliceUpTo hash MAX_HASH_SIZE = some pfx ∧
      pfx.length = MAX_HASH_SIZE ∧
      (portForwardStep env opts sysctl net_name network pno hash).2 =
        (routeLocalnetStep sysctl network).2 ++
          [.setupPortForward opts.container_id mappings ip sn.subnet net_name pfx] := by
  refine ⟨String.mk (hash.data.take MAX_HASH_SIZE), ?_, ?_, ?_⟩
  · unfold rustSliceUpTo
    rw [if_pos hlen]
  · show (hash.data.take MAX_HASH_SIZE).length = MAX_HASH_SIZE
    rw [List.length_take]
    exact Nat.min_eq_left hlen
  · exact portForwardStep_trace_eval env opts sysctl sysctl2 net_name network
      pno hash mappings ip ips sn sns hpm hloc hips hsub hlen

/-- C8 witness: with two static IPs and two subnets, the recorded call
uses `10.88.0.5` and `10.88.0.0/24` (the first of each) and a 13-character
prefix. -/
theorem port_forward_uses_first_ip_and_subnet_witness :
    ∃ pfx,
      rustSliceUpTo "podman0000000" MAX_HASH_SIZE = some pfx ∧
      pfx.length = MAX_HASH_SIZE ∧
      (portForwardStep (happyEnv opts1) opts1 store1 "podman"
          { driver := "bridge", network_interface := none,
            subnets := some [{ subnet := "10.88.0.0/24", gateway := none },
                             { subnet := "10.89.0.0/24", gateway := none }] }
          { static_ips := some ["10.88.0.5", "10.88.0.6"],
            interface_name := some "eth0" }
          "podman0000000").2 =
        (routeLocalnetStep store1
          { driver := "bridge", network_interface := none,
            subnets := some [{ subnet := "10.88.0.0/24", gateway := none },
                             { subnet := "10.89.0.0/24", gateway := none }] }).2 ++
          [.setupPortForward "ctr1"
            [{ host_port := 8080, container_port := 80, protocol := "tcp" }]
            "10.88.0.5" "10.88.0.0/24" "podman" pfx] :=
  port_forward_uses_first_ip_and_subnet (happyEnv opts1) opts1 store1 store1
    "podman" _ _ "podman0000000" _ "10.88.0.5" ["10.88.0.6"]
    { subnet := "10.88.0.0/24", gateway := none }
    [{ subnet := "10.89.0.0/24", gateway := none }]
    rfl rfl rfl rfl (by decide)

/-- C2 counterexample: the claim says a present-but-empty static-IP list
fails with an error, not a panic.  On a concrete bridge network with
`static_ips = Some([])`, a subnet and a port mapping, `exec` ends in the
index-out-of-bounds `panicked` outcome, not an `error` return. -/
theorem empty_static_ip_list_panics :
    (exec (happyEnv optsEmptyIps) "/ns" "opts.json" store1).1 =
      .panicked "index out of bounds: the len is 0" := by
  rfl

/-- C2 (amended): for every bridge network whose port-mapping block runs,
setup requires the static-IP list and the subnet list to be *present*,
failing with an error (before any `setup_port_forward` call) when either
is absent; a present-but-empty list is not rejected with an error —
indexing its first element panics instead (still before any
`setup_port_forward` call: the failing traces contain none). -/
theorem bridge_port_block_requires_present_lists (env : Env)
    (opts : NetworkOptions) (sysctl sysctl2 : SysctlStore) (net_name : String)
    (network : Network) (pno : PerNetworkOptions) (hash : String)
    (mappings : List PortMapping)
    (hpm : opts.port_mappings = some mappings)
    (hloc : (routeLocalnetStep sysctl network).1 = .ok sysctl2) :
    (pno.static_ips = none →
      portForwardStep env opts sysctl net_name network pno hash =
        (.error "no container ip provided",
         (routeLocalnetStep sysctl network).2)) ∧
    (∀ ips, pno.static_ips = some ips → network.subnets = none →
      portForwardStep env opts sysctl net_name network pno hash =
        (.error "no network address provided",
         (routeLocalnetStep sysctl network).2)) ∧
    (∀ subs, pno.static_ips = some [] → network.subnets = some subs →
      portForwardStep env opts sysctl net_name network pno hash =
        (.panicked "index out of bounds: the len is 0",
         (routeLocalnetStep sysctl network).2)) ∧
    (∀ ip ips, pno.static_ips = some (ip :: ips) → network.subnets = some [] →
      portForwardStep env opts sysctl net_name network pno hash =
        (.panicked "index out of bounds: the len is 0",
         (routeLocalnetStep sysctl network).2)) ∧
    ((routeLocalnetStep sysctl network).2).countP Event.isSetupPortForward = 0 := by
  refine ⟨fun hips =>
      portForwardStep_no_ip env opts sysctl sysctl2 net_name network pno hash
        mappings hpm hloc hips,
    fun ips hips hsub =>
      portForwardStep_no_subnet env opts sysctl sysctl2 net_name network pno hash
        mappings ips hpm hloc hips hsub,
    fun subs hips hsub =>
      portForwardStep_empty_ips env opts sysctl sysctl2 net_name network pno hash
        mappings subs hpm hloc hips hsub,
    fun ip ips hips hsub =>
      portForwardStep_empty_subnets env opts sysctl sysctl2 net_name network pno
        hash mappings ip ips hpm hloc hips hsub,
    routeLocalnet_countSPF sysctl network⟩

/-- C2 witness: the empty static-IP list of `optsEmptyIps` hits the
panic branch of the amended statement. -/
theorem bridge_port_block_requires_present_lists_witness :
    portForwardStep (happyEnv optsEmptyIps) optsEmptyIps store1 "podman"
        bridgeNet { static_ips := some [], interface_name := some "eth0" }
        "podman0000000" =
      (.panicked "index out of bounds: the len is 0",
       (routeLocalnetStep store1 bridgeNet).2) :=
  (bridge_port_block_requires_present_lists (happyEnv optsEmptyIps) optsEmptyIps
      store1 store1 "podman" bridgeNet
      { static_ips := some [], interface_name := some "eth0" }
      "podman0000000" _ rfl rfl).2.2.1 _ rfl rfl

/-- C3 counterexample: the claim says `setup_port_forward` is not
invoked when the port-mapping list contains zero mappings.  On a
concrete run whose options carry `port_mappings = Some([])`, the loop
still records exactly one `setup_port_forward` call. -/
theorem empty_mapping_list_still_calls_port_forward :
    ((exec (happyEnv optsNoMapList) "/ns" "opts.json" store1).2).countP
      Event.isSetupPortForward = 1 := by
  rfl

/-- C3 (amended): `setup_port_forward` is gated on the *presence* of the
port-mapping field, not on its emptiness: when `port_mappings` is `None`
no loop iteration records a `setup_port_forward` call, and when it is
`Some mappings` — even with zero mappings — the success path of a bridge
network's port-mapping block records exactly one. -/
theorem setup_port_forward_iff_mappings_present :
    (∀ (env : Env) (opts : NetworkOptions) (nspath : String)
       (st : LoopState) (nets : List (String × Network)),
      opts.port_mappings = none →
      ((processNetworks env opts nspath st nets).2).countP
        Event.isSetupPortForward = 0) ∧
    (∀ (env : Env) (opts : NetworkOptions) (sysctl sysctl2 : SysctlStore)
       (net_name : String) (network : Network) (pno : PerNetworkOptions)
       (hash : String) (mappings : List PortMapping) (ip : String)
       (ips : List String) (sn : Subnet) (sns : List Subnet),
      opts.port_mappings = some mappings →
      (routeLocalnetStep sysctl network).1 = .ok sysctl2 →
      pno.static_ips = some (ip :: ips) →
      network.subnets = some (sn :: sns) →
      MAX_HASH_SIZE ≤ hash.length →
      ((portForwardStep env opts sysctl net_name network pno hash).2).countP
        Event.isSetupPortForward = 1) := by
  constructor
  · intro env opts nspath st nets hpm
    exact processNetworks_countSPF_none env opts nspath hpm nets st
  · intro env opts sysctl sysctl2 net_name network pno hash mappings ip ips
      sn sns hpm hloc hips hsub hlen
    rw [portForwardStep_trace_eval env opts sysctl sysctl2 net_name network pno
        hash mappings ip ips sn sns hpm hloc hips hsub hlen,
      List.countP_append, routeLocalnet_countSPF]
    rfl

/-- C3 witness: no calls with `port_mappings = None` (the two-network
input), and exactly one call on the success path even when the present
mapping list is empty. -/
theorem setup_port_forward_iff_mappings_present_witness :
    ((processNetworks (happyEnv optsTwo) optsTwo "/ns"
        { sysctl := store1, response := [] } optsTwo.network_info).2).countP
      Event.isSetupPortForward = 0 ∧
    ((portForwardStep (happyEnv optsNoMapList) optsNoMapList store1 "podman"
        bridgeNet
        { static_ips := some ["10.88.0.5"], interface_name := some "eth0" }
        "podman0000000").2).countP Event.isSetupPortForward = 1 :=
  ⟨setup_port_forward_iff_mappings_present.1 (happyEnv optsTwo) optsTwo "/ns"
      { sysctl := store1, response := [] } optsTwo.network_info rfl,
   setup_port_forward_iff_mappings_present.2 (happyEnv optsNoMapList)
      optsNoMapList store1 store1 "podman" bridgeNet
      { static_ips := some ["10.88.0.5"], interface_name := some "eth0" }
      "podman0000000" [] "10.88.0.5" []
      { subnet := "10.88.0.0/24", gateway := some "10.88.0.1" } []
      rfl rfl rfl rfl (by decide)⟩

/-- C4: a network whose driver is neither `"bridge"` nor `"macvlan"`
makes `exec` fail with an error naming the offending driver; the trace
ends right after that network's marker event, so no later network is
processed, and the prefix trace of the already-processed networks is
intact — their constructor, firewall and sysctl calls all happened and
no compensating (rollback) event follows. -/
theorem unknown_driver_fails_immediately_no_rollback
    (env : Env) (p f : String) (sysctl0 : SysctlStore) (opts : NetworkOptions)
    (st1 : SysctlStore) (nm : String) (net : Network)
    (pre rest : List (String × Network)) (st' : LoopState) (evPre : List Event)
    (hns : env.ns_checks p = .ok ())
    (hload : env.load f = .ok opts)
    (hfw : env.firewall_probe = .ok ())
    (hens : (ensure_sysctl sysctl0 IPV4_FORWARD "1").1 = .ok st1)
    (hinfo : opts.network_info = pre ++ (nm, net) :: rest)
    (hpre : processNetworks env opts p { sysctl := st1, response := [] } pre =
      (.ok st', evPre))
    (hb : net.driver ≠ "bridge") (hm : net.driver ≠ "macvlan") :
    exec env p f sysctl0 =
      (.error ("unknown network driver " ++ net.driver),
       (ensure_sysctl sysctl0 IPV4_FORWARD "1").2 ++
         (evPre ++ [.processNet nm net.driver])) := by
  rw [exec_eval env p f sysctl0 opts st1 hns hload hfw hens, hinfo,
    processNetworks_unknown_driver env opts p nm net hb hm rest pre
      { sysctl := st1, response := [] } st' evPre hpre]

/-- C4 witness: in the two-network input whose second network has driver
`"vlan99"`, the run fails naming `vlan99` while the first (macvlan)
network's constructor call is in the trace. -/
theorem unknown_driver_fails_immediately_no_rollback_witness :
    exec (happyEnv opts4) "/ns" "opts.json" store1 =
      (.error ("unknown network driver " ++ vlanNet.driver),
       (ensure_sysctl store1 IPV4_FORWARD "1").2 ++
         ([.processNet "m1" "macvlan", .macvlanCtor "m1"] ++
          [.processNet "bad" vlanNet.driver])) :=
  unknown_driver_fails_immediately_no_rollback (happyEnv opts4) "/ns" "opts.json"
    store1 opts4 store1 "bad" vlanNet [("m1", macNet)] []
    { sysctl := store1, response := [("m1", { payload := "macvlan-status" })] }
    [.processNet "m1" "macvlan", .macvlanCtor "m1"]
    rfl rfl rfl rfl rfl rfl (by decide) (by decide)

/-- The ensure trace contains exactly one ensure entry for its key. -/
lemma ensure_trace_countEnsure (st : SysctlStore) (key v : String) :
    ((ensure_sysctl st key v).2).countP (Event.isEnsureOf key) = 1 := by
  rcases ensure_sysctl_trace_shape st key v with h | h <;> rw [h] <;>
    simp [List.countP_cons, Event.isEnsureOf]

/-- C6: once the namespace check, the config load and the firewall probe
have succeeded and the ip_forward key exists, the run's trace is the
ip_forward ensure trace followed by the loop trace; the loop trace
contains no ensure of `net.ipv4.ip_forward` at all (whatever the number
of networks — the list is universally quantified), so the whole trace
ensures `net.ipv4.ip_forward = "1"` exactly once, before any per-network
work. -/
theorem ip_forward_ensured_once_before_loop
    (env : Env) (p f : String) (sysctl0 : SysctlStore) (opts : NetworkOptions)
    (cur : String)
    (hns : env.ns_checks p = .ok ())
    (hload : env.load f = .ok opts)
    (hfw : env.firewall_probe = .ok ())
    (hcur : sysctlLookup sysctl0 IPV4_FORWARD = some cur) :
    ∃ evLoop,
      (exec env p f sysctl0).2 =
        (ensure_sysctl sysctl0 IPV4_FORWARD "1").2 ++ evLoop ∧
      evLoop.countP (Event.isEnsureOf IPV4_FORWARD) = 0 ∧
      ((ensure_sysctl sysctl0 IPV4_FORWARD "1").2).countP
        (Event.isEnsureOf IPV4_FORWARD) = 1 ∧
      ((exec env p f sysctl0).2).countP (Event.isEnsureOf IPV4_FORWARD) = 1 := by
  have hens : (ensure_sysctl sysctl0 IPV4_FORWARD "1").1 =
      .ok (if cur = "1" then sysctl0
           else sysctlUpdate sysctl0 IPV4_FORWARD "1") := by
    rw [ensure_sysctl_of_lookup sysctl0 IPV4_FORWARD "1" cur hcur]
  have h2 : (exec env p f sysctl0).2 =
      (ensure_sysctl sysctl0 IPV4_FORWARD "1").2 ++
        (processNetworks env opts p
          { sysctl := (if cur = "1" then sysctl0
                       else sysctlUpdate sysctl0 IPV4_FORWARD "1"),
            response := [] } opts.network_info).2 := by
    rw [exec_eval env p f sysctl0 opts _ hns hload hfw hens]
  have hloop :
      ((processNetworks env opts p
          { sysctl := (if cur = "1" then sysctl0
                       else sysctlUpdate sysctl0 IPV4_FORWARD "1"),
            response := [] } opts.network_info).2).countP
        (Event.isEnsureOf IPV4_FORWARD) = 0 :=
    processNetworks_countP_zero env opts p _ (fun _ _ => rfl)
      (fun _ _ _ h => tailEvent_not_ensureOf_ipforward h) opts.network_info _
  refine ⟨_, h2, hloop, ensure_trace_countEnsure sysctl0 IPV4_FORWARD "1", ?_⟩
  rw [h2, List.countP_append, hloop, ensure_trace_countEnsure]

/-- C6 witness: on the single-bridge input with ip_forward already
`"1"`, the run ensures ip_forward exactly once, before the loop. -/
theorem ip_forward_ensured_once_before_loop_witness :
    ∃ evLoop,
      (exec (happyEnv opts1) "/ns" "opts.json" store1).2 =
        (ensure_sysctl store1 IPV4_FORWARD "1").2 ++ evLoop ∧
      evLoop.countP (Event.isEnsureOf IPV4_FORWARD) = 0 ∧
      ((ensure_sysctl store1 IPV4_FORWARD "1").2).countP
        (Event.isEnsureOf IPV4_FORWARD) = 1 ∧
      ((exec (happyEnv opts1) "/ns" "opts.json" store1).2).countP
        (Event.isEnsureOf IPV4_FORWARD) = 1 :=
  ip_forward_ensured_once_before_loop (happyEnv opts1) "/ns" "opts.json"
    store1 opts1 "1" rfl rfl rfl rfl

/-- C7: a macvlan loop iteration performs no firewall call
(`setup_network` or `setup_port_forward`) and no sysctl interaction at
all, and a successful loop run calls `setup_network` exactly once per
bridge-driver network (and hence never for a macvlan one). -/
theorem setup_network_once_per_bridge_never_for_macvlan :
    (∀ (env : Env) (opts : NetworkOptions) (nspath : String) (st : LoopState)
       (net_name : String) (network : Network),
      network.driver = "macvlan" →
        ((processNetwork env opts nspath st net_name network).2).countP
          Event.isSetupNetwork = 0 ∧
        ((processNetwork env opts nspath st net_name network).2).countP
          Event.isSetupPortForward = 0 ∧
        ((processNetwork env opts nspath st net_name network).2).countP
          Event.isSysctl = 0) ∧
    (∀ (env : Env) (opts : NetworkOptions) (nspath : String)
       (nets : List (String × Network)) (st stF : LoopState),
      (processNetworks env opts nspath st nets).1 = .ok stF →
        ((processNetworks env opts nspath st nets).2).countP
          Event.isSetupNetwork =
          (nets.filter fun q => q.2.driver = "bridge").length) := by
  constructor
  · intro env opts nspath st net_name network hd
    have hshape : (processNetwork env opts nspath st net_name network).2 =
        .processNet net_name network.driver ::
          (macvlanStep env opts nspath st net_name network).2 := by
      unfold processNetwork
      rw [if_neg (by rw [hd]; decide), if_pos hd]
    refine ⟨?_, ?_, ?_⟩ <;>
      rw [hshape, List.countP_cons,
        macvlanStep_countP_zero env opts nspath st net_name network _ rfl] <;>
      rfl
  · intro env opts nspath nets st stF h
    exact processNetworks_ok_countSN env opts nspath nets st stF h

/-- C7 witness: the concrete macvlan network emits no firewall and no
sysctl events, and the successful one-bridge run calls `setup_network`
once. -/
theorem setup_network_once_per_bridge_never_for_macvlan_witness :
    (((processNetwork (happyEnv optsTwo) optsTwo "/ns"
        { sysctl := store1, response := [] } "m1" macNet).2).countP
      Event.isSetupNetwork = 0 ∧
     ((processNetwork (happyEnv optsTwo) optsTwo "/ns"
        { sysctl := store1, response := [] } "m1" macNet).2).countP
      Event.isSetupPortForward = 0 ∧
     ((processNetwork (happyEnv optsTwo) optsTwo "/ns"
        { sysctl := store1, response := [] } "m1" macNet).2).countP
      Event.isSysctl = 0) ∧
    ((processNetworks (happyEnv opts1) opts1 "/ns"
        { sysctl := store1, response := [] } opts1.network_info).2).countP
      Event.isSetupNetwork =
      (opts1.network_info.filter fun q => q.2.driver = "bridge").length :=
  ⟨setup_network_once_per_bridge_never_for_macvlan.1 (happyEnv optsTwo) optsTwo
      "/ns" { sysctl := store1, response := [] } "m1" macNet rfl,
   setup_network_once_per_bridge_never_for_macvlan.2 (happyEnv opts1) opts1
      "/ns" opts1.network_info { sysctl := store1, response := [] }
      { sysctl := store1,
        response := [("podman", { payload := "bridge-status" })] } rfl⟩

/-- Splitting `processedNames` over concatenated traces. -/
lemma processedNames_append (l1 l2 : List Event) :
    processedNames (l1 ++ l2) = processedNames l1 ++ processedNames l2 :=
  List.filterMap_append l1 l2 Event.procName

/-- The ensure trace starts no loop iteration. -/
lemma ensure_trace_processedNames (st : SysctlStore) (key v : String) :
    processedNames (ensure_sysctl st key v).2 = [] := by
  rcases ensure_sysctl_trace_shape st key v with h | h <;> rw [h] <;> rfl

/-- C9: on a successful run, the loop iterations happen exactly in the
insertion order of the `network_info` mapping: the trace's iteration
markers list precisely the network names in map order.  (spec-modelled:
the map type of `network_info` is declared in `src/network/types.rs`,
which is not among the sources; the spec fixes insertion order.) -/
theorem networks_processed_in_insertion_order
    (env : Env) (p f : String) (sysctl0 : SysctlStore) (opts : NetworkOptions)
    (cur : String) (resp : List (String × StatusBlock))
    (hns : env.ns_checks p = .ok ())
    (hload : env.load f = .ok opts)
    (hfw : env.firewall_probe = .ok ())
    (hcur : sysctlLookup sysctl0 IPV4_FORWARD = some cur)
    (hok : (exec env p f sysctl0).1 = .ok resp) :
    processedNames (exec env p f sysctl0).2 =
      opts.network_info.map Prod.fst := by
  have hens : (ensure_sysctl sysctl0 IPV4_FORWARD "1").1 =
      .ok (if cur = "1" then sysctl0
           else sysctlUpdate sysctl0 IPV4_FORWARD "1") := by
    rw [ensure_sysctl_of_lookup sysctl0 IPV4_FORWARD "1" cur hcur]
  have heval := exec_eval env p f sysctl0 opts _ hns hload hfw hens
  have h1 : (exec env p f sysctl0).1 =
      (match (processNetworks env opts p
          { sysctl := (if cur = "1" then sysctl0
                       else sysctlUpdate sysctl0 IPV4_FORWARD "1"),
            response := [] } opts.network_info).1 with
       | .ok stF => .ok stF.response
       | .error e => .error e
       | .panicked e => .panicked e) := by
    rw [heval]
  have h2 : (exec env p f sysctl0).2 =
      (ensure_sysctl sysctl0 IPV4_FORWARD "1").2 ++
        (processNetworks env opts p
          { sysctl := (if cur = "1" then sysctl0
                       else sysctlUpdate sysctl0 IPV4_FORWARD "1"),
            response := [] } opts.network_info).2 := by
    rw [heval]
  rw [h1] at hok
  rw [h2, processedNames_append, ensure_trace_processedNames,
    List.nil_append]
  cases hl : (processNetworks env opts p
      { sysctl := (if cur = "1" then sysctl0
                   else sysctlUpdate sysctl0 IPV4_FORWARD "1"),
        response := [] } opts.network_info).1 with
  | ok stF =>
    exact processNetworks_ok_processedNames env opts p opts.network_info _
      stF hl
  | error e => rw [hl] at hok; simp at hok
  | panicked e => rw [hl] at hok; simp at hok

/-- C9 witness: the two-network input is processed as `m1` then
`podman`, the insertion order of its `network_info`. -/
theorem networks_processed_in_insertion_order_witness :
    processedNames (exec (happyEnv optsTwo) "/ns" "opts.json" store1).2 =
      optsTwo.network_info.map Prod.fst :=
  networks_processed_in_insertion_order (happyEnv optsTwo) "/ns" "opts.json"
    store1 optsTwo "1"
    [("m1", { payload := "macvlan-status" }),
     ("podman", { payload := "bridge-status" })]
    rfl rfl rfl rfl (by rfl)

end Netavark
